import Mathlib

/-!
Verification of the `chan_discord` C binding shim (`asterisk_wrapper.c`,
`asterisk_wrapper.h`): four non-inlined C functions that forward directly to
Asterisk framework calls.  The shim functions are embedded faithfully from
the C source; the underlying framework functions (`ao2_alloc_options`,
`ao2_ref`, `ast_frdup`, `ast_rtp_engine_register`) are not part of this
repository, so they are modelled from the specification's description of
their behaviour.
-/

namespace ChanDiscord

/-- A C pointer value.  `0` is the null pointer; every non-null handle is a
positive number. -/
abbrev Handle := Nat

/-- A reference-counted (`ao2`) object owned by the framework: backing memory
of `size` bytes, a current reference count, an optional destructor callback
(identified by a number; `none` models a null callback pointer) and the
option flags it was allocated with. -/
structure Ao2Object where
  size : Nat
  refcount : Int
  destructor : Option Nat
  options : Nat
  deriving Repr, DecidableEq

/-- An opaque media/signal frame: its payload bytes. -/
structure Frame where
  content : List Nat
  deriving Repr, DecidableEq

/-- An RTP engine descriptor: its identifying name and whether the caller
populated the required callback table (well-formedness per framework rules). -/
structure Engine where
  name : String
  wellFormed : Bool
  deriving Repr, DecidableEq

/-- The state owned by the host framework (the shim itself owns no state):
the live `ao2` objects and frames keyed by handle, the global RTP engine
registry (identifying names), a log of destructor invocations (the handle is
recorded each time its destructor runs), the next fresh handle the allocator
will hand out, and the remaining heap memory in bytes (allocation beyond it
fails). -/
structure FrameworkState where
  objects : List (Handle × Ao2Object)
  frames : List (Handle × Frame)
  registry : List String
  destructorRuns : List Handle
  nextHandle : Handle
  memAvail : Nat
  deriving Repr, DecidableEq

/-- Association-list lookup by handle. -/
def assocFind {β : Type} (h : Handle) : List (Handle × β) → Option β
  | [] => none
  | (k, v) :: rest => if k = h then some v else assocFind h rest

/-- Remove every entry with the given handle. -/
def assocRemove {β : Type} (h : Handle) (l : List (Handle × β)) :
    List (Handle × β) :=
  l.filter (fun p => p.1 ≠ h)

/-- Well-formedness of a framework state: the fresh-handle counter is
non-null and strictly above every live handle, so freshly allocated handles
are non-null and distinct from all live objects and frames. -/
def StateWF (s : FrameworkState) : Prop :=
  0 < s.nextHandle ∧
    (∀ p ∈ s.objects, p.1 < s.nextHandle) ∧
    (∀ p ∈ s.frames, p.1 < s.nextHandle)

instance (s : FrameworkState) : Decidable (StateWF s) := by
  unfold StateWF; infer_instance

/-- Modelled from the spec: `ao2_alloc_options` is an Asterisk framework
function missing from `src/`.  Per the spec it allocates a reference-counted
object whose backing memory is exactly `data_size` bytes, associates the
destructor callback and option flags with it, and returns the new handle, or
null (`none`) when the underlying heap allocation fails; the new object
starts with reference count 1 and ownership transfers to the caller. -/
def ao2_alloc_options (data_size : Nat) (destructor : Option Nat)
    (options : Nat) (s : FrameworkState) : Option Handle × FrameworkState :=
  if data_size ≤ s.memAvail then
    (some s.nextHandle,
      { s with
        objects := (s.nextHandle,
          { size := data_size, refcount := 1,
            destructor := destructor, options := options }) :: s.objects
        nextHandle := s.nextHandle + 1
        memAvail := s.memAvail - data_size })
  else (none, s)

/-- Modelled from the spec: `ao2_ref` is an Asterisk framework function
missing from `src/`.  Per the spec it adjusts the object's reference count
by the signed `delta` and yields the new reference count; when the count
reaches zero it triggers the associated destructor (when one was supplied)
and deallocates the object, returning its memory.  Behaviour on an invalid
handle is undefined per the spec; the model leaves the state unchanged
there. -/
def ao2_ref (obj : Handle) (delta : Int) (s : FrameworkState) :
    Int × FrameworkState :=
  match assocFind obj s.objects with
  | none => (0, s)
  | some o =>
      let newCount := o.refcount + delta
      if newCount = 0 then
        (newCount,
          { s with
            objects := assocRemove obj s.objects
            destructorRuns :=
              if o.destructor.isSome then obj :: s.destructorRuns
              else s.destructorRuns
            memAvail := s.memAvail + o.size })
      else
        (newCount,
          { s with
            objects := (obj, { o with refcount := newCount })
              :: assocRemove obj s.objects })

/-- Modelled from the spec: `ast_frdup` is an Asterisk framework function
missing from `src/`.  Per the spec it duplicates an existing frame into a
new, independently owned frame with equal content, returning null (`none`)
when the underlying allocation fails (e.g. out of memory).  Behaviour on a
null or invalid frame handle is outside the stated input domain; the model
returns null there. -/
def ast_frdup (frame : Handle) (s : FrameworkState) :
    Option Handle × FrameworkState :=
  match assocFind frame s.frames with
  | none => (none, s)
  | some f =>
      if f.content.length ≤ s.memAvail then
        (some s.nextHandle,
          { s with
            frames := (s.nextHandle, f) :: s.frames
            nextHandle := s.nextHandle + 1
            memAvail := s.memAvail - f.content.length })
      else (none, s)

/-- Modelled from the spec: `ast_rtp_engine_register` is an Asterisk
framework function missing from `src/`.  Per the spec it adds the engine
descriptor to the framework's global engine registry and returns an integer
status code: 0 on success, nonzero on a malformed descriptor or on duplicate
registration of the same identifying name. -/
def ast_rtp_engine_register (engine : Engine) (s : FrameworkState) :
    Int × FrameworkState :=
  if engine.wellFormed = false then (-1, s)
  else if engine.name ∈ s.registry then (-1, s)
  else (0, { s with registry := engine.name :: s.registry })

/-! The four shim functions, embedded from `src/asterisk_wrapper.c`.  Each
is the literal body of the C function: a single call to the framework
function with the shim's own arguments. -/

/-- `void* rust_ao2_alloc(size_t data_size, ao2_destructor_fn destructor,
unsigned int options) { return ao2_alloc_options(data_size, destructor,
options); }` -/
def rust_ao2_alloc (data_size : Nat) (destructor : Option Nat)
    (options : Nat) (s : FrameworkState) : Option Handle × FrameworkState :=
  ao2_alloc_options data_size destructor options s

/-- `void rust_ao2_ref(void* obj, int delta) { ao2_ref(obj, delta); }` —
the C function's return type is `void`: it invokes `ao2_ref` as a statement,
keeping only its state effect and discarding its value. -/
def rust_ao2_ref (obj : Handle) (delta : Int) (s : FrameworkState) :
    FrameworkState :=
  (ao2_ref obj delta s).2

/-- `struct ast_frame* rust_ast_frdup(struct ast_frame* frame) { return
ast_frdup(frame); }` -/
def rust_ast_frdup (frame : Handle) (s : FrameworkState) :
    Option Handle × FrameworkState :=
  ast_frdup frame s

/-- `int rust_ast_rtp_engine_register(struct ast_rtp_engine *engine) {
return ast_rtp_engine_register(engine); }` -/
def rust_ast_rtp_engine_register (engine : Engine) (s : FrameworkState) :
    Int × FrameworkState :=
  ast_rtp_engine_register engine s

/-! The declared C types of the shim functions, transcribed from
`src/asterisk_wrapper.h`. -/

/-- C types appearing in the shim's declared signatures. -/
inductive CType where
  | void
  | int
  | uint
  | size_t
  | voidPtr
  | framePtr
  | enginePtr
  | destructorFn
  deriving Repr, DecidableEq

/-- A declared C function signature: argument types and return type. -/
structure CFunSig where
  args : List CType
  ret : CType
  deriving Repr, DecidableEq

/-- Header line `void* rust_ao2_alloc(size_t data_size, ao2_destructor_fn
destructor, unsigned int options);`. -/
def rust_ao2_alloc_sig : CFunSig :=
  { args := [CType.size_t, CType.destructorFn, CType.uint],
    ret := CType.voidPtr }

/-- Header line `void rust_ao2_ref(void* obj, int delta);`. -/
def rust_ao2_ref_sig : CFunSig :=
  { args := [CType.voidPtr, CType.int], ret := CType.void }

/-- Header line `struct ast_frame* rust_ast_frdup(struct ast_frame*
frame);`. -/
def rust_ast_frdup_sig : CFunSig :=
  { args := [CType.framePtr], ret := CType.framePtr }

/-- Header line `int rust_ast_rtp_engine_register(struct ast_rtp_engine
*engine);`. -/
def rust_ast_rtp_engine_register_sig : CFunSig :=
  { args := [CType.enginePtr], ret := CType.int }

/-! A shim call trace, for the frame/statelessness claims: each constructor
carries the arguments of one shim entry point. -/

/-- One call to a shim entry point, with its arguments. -/
inductive ShimCall where
  | alloc (data_size : Nat) (destructor : Option Nat) (options : Nat)
  | ref (obj : Handle) (delta : Int)
  | frdup (frame : Handle)
  | register (engine : Engine)
  deriving Repr, DecidableEq

/-- The value a call returns to the caller: a possibly-null pointer, nothing
(`void`), or an integer status code. -/
inductive CallResult where
  | ptr (h : Option Handle)
  | unit
  | status (code : Int)
  deriving Repr, DecidableEq

/-- The state effect of one call made through the shim entry points. -/
def stepShim (c : ShimCall) (s : FrameworkState) : FrameworkState :=
  match c with
  | ShimCall.alloc data_size destructor options =>
      (rust_ao2_alloc data_size destructor options s).2
  | ShimCall.ref obj delta => rust_ao2_ref obj delta s
  | ShimCall.frdup frame => (rust_ast_frdup frame s).2
  | ShimCall.register engine => (rust_ast_rtp_engine_register engine s).2

/-- The state effect of the same call made directly on the framework. -/
def stepFramework (c : ShimCall) (s : FrameworkState) : FrameworkState :=
  match c with
  | ShimCall.alloc data_size destructor options =>
      (ao2_alloc_options data_size destructor options s).2
  | ShimCall.ref obj delta => (ao2_ref obj delta s).2
  | ShimCall.frdup frame => (ast_frdup frame s).2
  | ShimCall.register engine => (ast_rtp_engine_register engine s).2

/-- Run a sequence of calls through the shim entry points. -/
def runShim : List ShimCall → FrameworkState → FrameworkState
  | [], s => s
  | c :: rest, s => runShim rest (stepShim c s)

/-- Run the same sequence of calls directly on the framework. -/
def runFramework : List ShimCall → FrameworkState → FrameworkState
  | [], s => s
  | c :: rest, s => runFramework rest (stepFramework c s)

/-- The value a shim call returns to the caller (`rust_ao2_ref` is `void`,
so it returns nothing). -/
def shimResult (c : ShimCall) (s : FrameworkState) : CallResult :=
  match c with
  | ShimCall.alloc data_size destructor options =>
      CallResult.ptr (rust_ao2_alloc data_size destructor options s).1
  | ShimCall.ref _ _ => CallResult.unit
  | ShimCall.frdup frame => CallResult.ptr (rust_ast_frdup frame s).1
  | ShimCall.register engine =>
      CallResult.status (rust_ast_rtp_engine_register engine s).1

/-! Concrete framework states used to evaluate the theorems on explicit
inputs. -/

/-- A small well-formed framework state: one live object (handle 1,
4 bytes, reference count 2, destructor 7), one live frame (handle 2,
two payload bytes), one registered engine name, 100 bytes of free heap. -/
def st1 : FrameworkState :=
  FrameworkState.mk [(1, Ao2Object.mk 4 2 (some 7) 0)]
    [(2, Frame.mk [10, 20])] ["existing"] [] 3 100

/-- A well-formed framework state whose heap is exhausted (`memAvail = 0`),
so every allocation of a positive size fails. -/
def stOOM : FrameworkState :=
  FrameworkState.mk [] [] [] [] 1 0

/-- A well-formed framework state holding one object (handle 1) with
reference count 1 and destructor 7. -/
def stOne : FrameworkState :=
  FrameworkState.mk [(1, Ao2Object.mk 8 1 (some 7) 0)] [] [] [] 2 10

/-! Helper lemmas about association lists. -/

theorem assocFind_mem {β : Type} {h : Handle} {v : β} :
    ∀ {l : List (Handle × β)}, assocFind h l = some v → (h, v) ∈ l := by
  intro l
  induction l with
  | nil => intro hx; simp [assocFind] at hx
  | cons p rest ih =>
      intro hx
      obtain ⟨k, w⟩ := p
      simp only [assocFind] at hx
      by_cases hk : k = h
      · rw [if_pos hk] at hx
        injection hx with hw
        subst hk; subst hw
        exact List.mem_cons_self _ _
      · rw [if_neg hk] at hx
        exact List.mem_cons_of_mem _ (ih hx)

theorem assocFind_eq_none_of_forall_lt {β : Type} {n : Handle} :
    ∀ {l : List (Handle × β)}, (∀ p ∈ l, p.1 < n) → assocFind n l = none := by
  intro l
  induction l with
  | nil => intro _; rfl
  | cons p rest ih =>
      intro hall
      have hp : p.1 < n := hall p (List.mem_cons_self p rest)
      have hne : p.1 ≠ n := Nat.ne_of_lt hp
      simp only [assocFind, hne, if_neg, not_false_iff]
      exact ih (fun q hq => hall q (List.mem_cons_of_mem _ hq))

theorem assocFind_remove_self {β : Type} (h : Handle)
    (l : List (Handle × β)) : assocFind h (assocRemove h l) = none := by
  induction l with
  | nil => rfl
  | cons p rest ih =>
      by_cases hk : p.1 = h
      · simpa [assocRemove, hk] using ih
      · simpa [assocRemove, assocFind, hk] using ih

/-! Claims. -/

/-- Claim C1, counterexample: the claim states that the reference-count
adjustment operation returns the new reference count as an `int`, but the
declared signature of `rust_ao2_ref` in `asterisk_wrapper.h` returns
`void`, not `int`. -/
theorem c1_counterexample :
    rust_ao2_ref_sig.ret = CType.void ∧ rust_ao2_ref_sig.ret ≠ CType.int := by
  decide

/-- Claim C1, amended: the reference-count adjustment operation takes a
handle and a signed delta and returns `void`: it applies the underlying
framework adjustment for its state effect only, and the new reference count
is not returned to the caller. -/
theorem c1_adjust_refcount_returns_void :
    rust_ao2_ref_sig.ret = CType.void ∧
      ∀ (obj : Handle) (delta : Int) (s : FrameworkState),
        rust_ao2_ref obj delta s = (ao2_ref obj delta s).2 :=
  ⟨rfl, fun _ _ _ => rfl⟩

/-- Claim C2, counterexample: the claim covers all four shim operations,
but on a concrete state the underlying `ao2_ref` call produces the integer
3 (the new reference count) while the shim's `rust_ao2_ref` is declared
`void` and so returns no value at all — its result is not the value
produced by the underlying call. -/
theorem c2_counterexample :
    (ao2_ref 1 1 st1).1 = 3 ∧ rust_ao2_ref_sig.ret = CType.void ∧
      rust_ao2_ref_sig.ret ≠ CType.int := by
  decide

/-- Claim C2, amended: the three value-returning shim operations return
exactly the value produced by the single underlying framework call
(`rust_ao2_alloc` = `ao2_alloc_options`, `rust_ast_frdup` = `ast_frdup`,
`rust_ast_rtp_engine_register` = `ast_rtp_engine_register`), with the result
passed back unmodified; `rust_ao2_ref` applies the underlying call's state
effect unchanged but returns `void`, discarding the underlying integer
result. -/
theorem c2_pass_through_values :
    (∀ (data_size : Nat) (destructor : Option Nat) (options : Nat)
        (s : FrameworkState),
      (rust_ao2_alloc data_size destructor options s).1 =
        (ao2_alloc_options data_size destructor options s).1) ∧
    (∀ (frame : Handle) (s : FrameworkState),
      (rust_ast_frdup frame s).1 = (ast_frdup frame s).1) ∧
    (∀ (engine : Engine) (s : FrameworkState),
      (rust_ast_rtp_engine_register engine s).1 =
        (ast_rtp_engine_register engine s).1) ∧
    (∀ (obj : Handle) (delta : Int) (s : FrameworkState),
      rust_ao2_ref obj delta s = (ao2_ref obj delta s).2) :=
  ⟨fun _ _ _ _ => rfl, fun _ _ => rfl, fun _ _ => rfl, fun _ _ _ => rfl⟩

/-- Claim C3, counterexample: on a state with an exhausted heap the
allocation operation, given the valid input (size 1, null destructor,
options 0), returns null rather than a non-null handle. -/
theorem c3_counterexample :
    0 < (1 : Nat) ∧ StateWF stOOM ∧
      (rust_ao2_alloc 1 none 0 stOOM).1 = none := by
  decide

/-- Claim C3, amended: for all valid (size, destructor, options) inputs for
which the underlying allocation succeeds (enough heap remains), the
allocation operation returns a non-null handle whose backing memory is
exactly `size` bytes; when the underlying allocation fails it returns
null. -/
theorem c3_alloc_success_exact_size (data_size : Nat)
    (destructor : Option Nat) (options : Nat) (s : FrameworkState)
    (hwf : StateWF s) (hpos : 0 < data_size)
    (hmem : data_size ≤ s.memAvail) :
    ∃ h, (rust_ao2_alloc data_size destructor options s).1 = some h ∧
      h ≠ 0 ∧
      assocFind h (rust_ao2_alloc data_size destructor options s).2.objects =
        some { size := data_size, refcount := 1, destructor := destructor,
               options := options } := by
  refine ⟨s.nextHandle, ?_, ?_, ?_⟩
  · simp [rust_ao2_alloc, ao2_alloc_options, hmem]
  · exact Nat.pos_iff_ne_zero.mp hwf.1
  · simp [rust_ao2_alloc, ao2_alloc_options, hmem, assocFind]

/-- Claim C3, witness: the amended theorem evaluated on the concrete state
`st1` with size 4. -/
theorem c3_alloc_success_exact_size_witness :
    ∃ h, (rust_ao2_alloc 4 (some 7) 0 st1).1 = some h ∧ h ≠ 0 ∧
      assocFind h (rust_ao2_alloc 4 (some 7) 0 st1).2.objects =
        some { size := 4, refcount := 1, destructor := some 7,
               options := 0 } :=
  c3_alloc_success_exact_size 4 (some 7) 0 st1 (by decide) (by decide)
    (by decide)

/-- Claim C4: the allocation operation fails only by returning null — its
result is null exactly when the underlying allocation fails (requested size
exceeds the remaining heap); there is no other error channel (the operation
is a total function into an optional handle), and every successful
allocation returns a non-null handle. -/
theorem c4_alloc_null_iff_failure (data_size : Nat)
    (destructor : Option Nat) (options : Nat) (s : FrameworkState)
    (hwf : StateWF s) :
    ((rust_ao2_alloc data_size destructor options s).1 = none ↔
        s.memAvail < data_size) ∧
    (∀ h, (rust_ao2_alloc data_size destructor options s).1 = some h →
      h ≠ 0) := by
  constructor
  · by_cases hmem : data_size ≤ s.memAvail
    · simp [rust_ao2_alloc, ao2_alloc_options, hmem, Nat.not_lt.mpr hmem]
    · simp [rust_ao2_alloc, ao2_alloc_options, hmem, Nat.lt_of_not_le hmem]
  · intro h hsome
    by_cases hmem : data_size ≤ s.memAvail
    · simp only [rust_ao2_alloc, ao2_alloc_options, hmem, if_pos] at hsome
      cases hsome
      exact Nat.pos_iff_ne_zero.mp hwf.1
    · simp [rust_ao2_alloc, ao2_alloc_options, hmem] at hsome

/-- Claim C4, witness: the theorem evaluated on the concrete state `st1`
with size 4. -/
theorem c4_alloc_null_iff_failure_witness :
    ((rust_ao2_alloc 4 none 0 st1).1 = none ↔ st1.memAvail < 4) ∧
    (∀ h, (rust_ao2_alloc 4 none 0 st1).1 = some h → h ≠ 0) :=
  c4_alloc_null_iff_failure 4 none 0 st1 (by decide)

/-- Claim C5: for every non-null, live frame handle, the frame-duplication
operation returns null exactly when the underlying duplication fails (not
enough memory for the copy); otherwise it returns a new frame handle that
is non-null, distinct from the original, not previously live, and
independently owned: the copy carries the same content and the original
frame remains live and unchanged. -/
theorem c5_frdup_null_iff_failure (frame : Handle) (f : Frame)
    (s : FrameworkState) (hwf : StateWF s) (hnull : frame ≠ 0)
    (hframe : assocFind frame s.frames = some f) :
    ((rust_ast_frdup frame s).1 = none ↔ s.memAvail < f.content.length) ∧
    (∀ h', (rust_ast_frdup frame s).1 = some h' →
      h' ≠ 0 ∧ h' ≠ frame ∧ assocFind h' s.frames = none ∧
      assocFind h' (rust_ast_frdup frame s).2.frames = some f ∧
      assocFind frame (rust_ast_frdup frame s).2.frames = some f) := by
  have hlt : frame < s.nextHandle := hwf.2.2 (frame, f) (assocFind_mem hframe)
  constructor
  · simp only [rust_ast_frdup, ast_frdup, hframe]
    by_cases hmem : f.content.length ≤ s.memAvail
    · simp [hmem, Nat.not_lt.mpr hmem]
    · simp [hmem, Nat.lt_of_not_le hmem]
  · intro h' hsome
    simp only [rust_ast_frdup, ast_frdup, hframe] at hsome ⊢
    by_cases hmem : f.content.length ≤ s.memAvail
    · rw [if_pos hmem] at hsome ⊢
      injection hsome with hh
      subst hh
      refine ⟨Nat.pos_iff_ne_zero.mp hwf.1, Nat.ne_of_gt hlt,
        assocFind_eq_none_of_forall_lt hwf.2.2, ?_, ?_⟩
      · simp [assocFind]
      · simp only [assocFind]
        rw [if_neg (Nat.ne_of_gt hlt)]
        exact hframe
    · rw [if_neg hmem] at hsome
      exact absurd hsome (by simp)

/-- Claim C5, witness: the theorem evaluated on `st1` at the live frame
handle 2. -/
theorem c5_frdup_null_iff_failure_witness :
    ((rust_ast_frdup 2 st1).1 = none ↔
        st1.memAvail < (Frame.mk [10, 20]).content.length) ∧
    (∀ h', (rust_ast_frdup 2 st1).1 = some h' →
      h' ≠ 0 ∧ h' ≠ 2 ∧ assocFind h' st1.frames = none ∧
      assocFind h' (rust_ast_frdup 2 st1).2.frames =
        some (Frame.mk [10, 20]) ∧
      assocFind 2 (rust_ast_frdup 2 st1).2.frames =
        some (Frame.mk [10, 20])) :=
  c5_frdup_null_iff_failure 2 (Frame.mk [10, 20]) st1 (by decide)
    (by decide) (by decide)

/-- Claim C6: RTP engine registration returns 0 on registering a
well-formed, previously-unregistered descriptor, and any subsequent
registration of an engine with the same identifying name returns a nonzero
status. -/
theorem c6_register_status (engine : Engine) (s : FrameworkState)
    (hwf : engine.wellFormed = true) (hnew : engine.name ∉ s.registry) :
    (rust_ast_rtp_engine_register engine s).1 = 0 ∧
    (∀ e' : Engine, e'.name = engine.name →
      (rust_ast_rtp_engine_register e'
          (rust_ast_rtp_engine_register engine s).2).1 ≠ 0) := by
  have h1 : rust_ast_rtp_engine_register engine s =
      (0, { s with registry := engine.name :: s.registry }) := by
    simp [rust_ast_rtp_engine_register, ast_rtp_engine_register, hwf, hnew]
  refine ⟨by rw [h1], ?_⟩
  intro e' hname
  rw [h1]
  by_cases hwf' : e'.wellFormed = true
  · have hmem : e'.name ∈ engine.name :: s.registry := by
      rw [hname]; exact List.mem_cons_self _ _
    simp [rust_ast_rtp_engine_register, ast_rtp_engine_register, hwf', hmem]
  · simp [rust_ast_rtp_engine_register, ast_rtp_engine_register,
      Bool.not_eq_true e'.wellFormed ▸ hwf']

/-- Claim C6, witness: the theorem evaluated on `st1` with a fresh
well-formed engine descriptor. -/
theorem c6_register_status_witness :
    (rust_ast_rtp_engine_register (Engine.mk "discord" true) st1).1 = 0 ∧
    (∀ e' : Engine, e'.name = (Engine.mk "discord" true).name →
      (rust_ast_rtp_engine_register e'
          (rust_ast_rtp_engine_register (Engine.mk "discord" true)
            st1).2).1 ≠ 0) :=
  c6_register_status (Engine.mk "discord" true) st1 rfl (by decide)

/-- Claim C7: each shim operation forwards its arguments to the underlying
framework function unconditionally and unchanged — the equalities hold for
every input with no precondition, including the null handle (`0`) and
arbitrary (unrecognized) option bitmasks; the shim has no guarding branch,
performs no validation and keeps no log. -/
theorem c7_no_validation_pass_through :
    (∀ (data_size : Nat) (destructor : Option Nat) (options : Nat)
        (s : FrameworkState),
      rust_ao2_alloc data_size destructor options s =
        ao2_alloc_options data_size destructor options s) ∧
    (∀ (obj : Handle) (delta : Int) (s : FrameworkState),
      rust_ao2_ref obj delta s = (ao2_ref obj delta s).2) ∧
    (∀ (frame : Handle) (s : FrameworkState),
      rust_ast_frdup frame s = ast_frdup frame s) ∧
    (∀ (engine : Engine) (s : FrameworkState),
      rust_ast_rtp_engine_register engine s =
        ast_rtp_engine_register engine s) :=
  ⟨fun _ _ _ _ => rfl, fun _ _ _ => rfl, fun _ _ => rfl, fun _ _ => rfl⟩

/-- Claim C8: for a live handle with reference count 1 and an associated
destructor, adjusting the reference count by −1 runs the destructor exactly
once (the handle's destructor-invocation count grows by exactly 1, so never
zero times and never twice) and the handle is no longer live afterwards. -/
theorem c8_destructor_exactly_once (h : Handle) (o : Ao2Object) (d : Nat)
    (s : FrameworkState) (hobj : assocFind h s.objects = some o)
    (hcount : o.refcount = 1) (hdtor : o.destructor = some d) :
    (rust_ao2_ref h (-1) s).destructorRuns.count h =
      s.destructorRuns.count h + 1 ∧
    assocFind h (rust_ao2_ref h (-1) s).objects = none := by
  have hzero : o.refcount + (-1) = 0 := by rw [hcount]; norm_num
  have hsome : o.destructor.isSome = true := by rw [hdtor]; rfl
  simp only [rust_ao2_ref, ao2_ref, hobj, hzero, hsome, if_true, if_pos]
  exact ⟨List.count_cons_self h s.destructorRuns,
    assocFind_remove_self h s.objects⟩

/-- Claim C8, witness: the theorem evaluated on `stOne`, whose handle 1 has
reference count 1 and destructor 7. -/
theorem c8_destructor_exactly_once_witness :
    (rust_ao2_ref 1 (-1) stOne).destructorRuns.count 1 =
      stOne.destructorRuns.count 1 + 1 ∧
    assocFind 1 (rust_ao2_ref 1 (-1) stOne).objects = none :=
  c8_destructor_exactly_once 1 (Ao2Object.mk 8 1 (some 7) 0) 7 stOne
    (by decide) (by decide) (by decide)

/-- Claim C9: the shim owns no state.  Its per-call state effect coincides
with the framework's own, every sequence of calls through the shim leaves
the framework state exactly as the same sequence of direct framework calls
would (nothing outside what the underlying calls touch ever changes), and
the value a shim call returns after any prior shim calls is determined by
the framework state alone — the shim contributes no state of its own to it. -/
theorem c9_shim_owns_no_state :
    (∀ (c : ShimCall) (s : FrameworkState),
      stepShim c s = stepFramework c s) ∧
    (∀ (calls : List ShimCall) (s : FrameworkState),
      runShim calls s = runFramework calls s) ∧
    (∀ (pre : List ShimCall) (c : ShimCall) (s : FrameworkState),
      shimResult c (runShim pre s) = shimResult c (runFramework pre s)) := by
  have hstep : ∀ (c : ShimCall) (s : FrameworkState),
      stepShim c s = stepFramework c s := by
    intro c s; cases c <;> rfl
  have hrun : ∀ (calls : List ShimCall) (s : FrameworkState),
      runShim calls s = runFramework calls s := by
    intro calls
    induction calls with
    | nil => intro s; rfl
    | cons c rest ih =>
        intro s
        simp only [runShim, runFramework, hstep]
        exact ih _
  exact ⟨hstep, hrun, fun pre c s => by rw [hrun]⟩

/-- Claim C10: the shim introduces no nondeterminism — whenever the
underlying framework call yields the same result on two occasions (here: in
two framework states), the corresponding shim operation yields the same
result as well. -/
theorem c10_shim_deterministic (s₁ s₂ : FrameworkState) :
    (∀ (data_size : Nat) (destructor : Option Nat) (options : Nat),
      ao2_alloc_options data_size destructor options s₁ =
        ao2_alloc_options data_size destructor options s₂ →
      rust_ao2_alloc data_size destructor options s₁ =
        rust_ao2_alloc data_size destructor options s₂) ∧
    (∀ (obj : Handle) (delta : Int),
      ao2_ref obj delta s₁ = ao2_ref obj delta s₂ →
      rust_ao2_ref obj delta s₁ = rust_ao2_ref obj delta s₂) ∧
    (∀ (frame : Handle),
      ast_frdup frame s₁ = ast_frdup frame s₂ →
      rust_ast_frdup frame s₁ = rust_ast_frdup frame s₂) ∧
    (∀ (engine : Engine),
      ast_rtp_engine_register engine s₁ = ast_rtp_engine_register engine s₂ →
      rust_ast_rtp_engine_register engine s₁ =
        rust_ast_rtp_engine_register engine s₂) :=
  ⟨fun _ _ _ hx => hx, fun _ _ hx => congrArg Prod.snd hx,
    fun _ hx => hx, fun _ hx => hx⟩

/-- Claim C10, witness: the theorem applied with both framework states
taken to be the concrete state `st1`, where each underlying call trivially
yields the same result. -/
theorem c10_shim_deterministic_witness :
    rust_ao2_alloc 4 none 0 st1 = rust_ao2_alloc 4 none 0 st1 ∧
    rust_ao2_ref 1 1 st1 = rust_ao2_ref 1 1 st1 ∧
    rust_ast_frdup 2 st1 = rust_ast_frdup 2 st1 ∧
    rust_ast_rtp_engine_register (Engine.mk "discord" true) st1 =
      rust_ast_rtp_engine_register (Engine.mk "discord" true) st1 :=
  ⟨(c10_shim_deterministic st1 st1).1 4 none 0 rfl,
    (c10_shim_deterministic st1 st1).2.1 1 1 rfl,
    (c10_shim_deterministic st1 st1).2.2.1 2 rfl,
    (c10_shim_deterministic st1 st1).2.2.2 (Engine.mk "discord" true) rfl⟩

end ChanDiscord
